import Mathlib

/-!
# Verification of the CompressionX image pipeline

A shallow embedding of `compresionx.py`: the lossy re-encoder
(`compression_algorithm`), the super-resolution upscaler
(`ai_upscale_image`), and the demo-page orchestration, together with
theorems settling the specification's claims about them.

External library behaviour (PIL, OpenCV, Streamlit, the filesystem) is
abstracted into environment records whose fields say how each library
call would respond; the control flow, arithmetic and string handling of
the repository's own code are translated directly.
-/

/-- Python `int()` applied to a rational value.  `int()` truncates toward
zero; every value it is applied to in this program (`max_width / aspect_ratio`
and `max_width * aspect_ratio` with nonnegative dimensions) is nonnegative,
where truncation coincides with the floor, and the floor is itself
nonnegative, so `Int.toNat` loses nothing. -/
def pyInt (q : ℚ) : ℕ := ⌊q⌋.toNat

/-- Python `range(start, stop, step)` for a positive `step`:
`[start, start + step, …)` strictly below `stop`. -/
def pyRange (start stop step : ℕ) : List ℕ :=
  (List.range ((stop - start + step - 1) / step)).map (fun k => start + step * k)

/-- `os.path.join` for the relative two-component paths this program builds. -/
def osPathJoin (a b : String) : String := a ++ "/" ++ b

/-- Working-size computation of `ai_upscale_image` (src/compresionx.py
lines 40–49): from the image's height `h` and width `w`
(`h, w = img.shape[:2]`), `aspect_ratio = w / h`; if `w > h` then
`new_w = max_width` and `new_h = int(max_width / aspect_ratio)`, else
`new_h = max_width` and `new_w = int(max_width * aspect_ratio)`.
Python's float arithmetic is idealised as exact rational arithmetic.
Returns `(new_w, new_h)`, the size tuple passed to `cv2.resize`. -/
def resizeTargetDims (w h max_width : ℕ) : ℕ × ℕ :=
  let aspect_ratio : ℚ := (w : ℚ) / (h : ℚ)
  if h < w then
    (max_width, pyInt ((max_width : ℚ) / aspect_ratio))
  else
    (pyInt ((max_width : ℚ) * aspect_ratio), max_width)

lemma pyInt_natCast_div (a n : ℕ) : pyInt ((a : ℚ) / (n : ℚ)) = a / n := by
  rw [pyInt, Int.floor_toNat, Nat.floor_div_nat, Nat.floor_natCast]

/-- The rational working-size computation reduces to natural-number
floor division. -/
lemma resizeTargetDims_eq (w h mw : ℕ) :
    resizeTargetDims w h mw = if h < w then (mw, mw * h / w) else (mw * w / h, mw) := by
  have h1 : (mw : ℚ) / ((w : ℚ) / (h : ℚ)) = ((mw * h : ℕ) : ℚ) / ((w : ℕ) : ℚ) := by
    push_cast
    rw [div_div_eq_mul_div]
  have h2 : (mw : ℚ) * ((w : ℚ) / (h : ℚ)) = ((mw * w : ℕ) : ℚ) / ((h : ℕ) : ℚ) := by
    push_cast
    ring
  unfold resizeTargetDims
  dsimp only
  split
  · rw [h1, pyInt_natCast_div]
  · rw [h2, pyInt_natCast_div]

example : resizeTargetDims 7 6 540 = (540, 462) := by rw [resizeTargetDims_eq]; decide
example : resizeTargetDims 100 50 540 = (540, 270) := by rw [resizeTargetDims_eq]; decide
example : resizeTargetDims 1 1000 540 = (0, 540) := by rw [resizeTargetDims_eq]; decide
example : pyRange 0 101 10 = [0, 10, 20, 30, 40, 50, 60, 70, 80, 90, 100] := by decide

/-- The Python exceptions relevant to this program.  `fileNotFound` is
`FileNotFoundError`; the remaining constructors stand for the other
exception classes the libraries can raise (PIL decode errors, OS errors
such as disk-full, OpenCV `cv2.error`). -/
inductive PyExn where
  | fileNotFound (msg : String)
  | unidentifiedImage (msg : String)
  | osError (msg : String)
  | cvError (msg : String)
  deriving DecidableEq

/-- Whether an exception is a `FileNotFoundError` — the only class the
re-encoder's `except FileNotFoundError` clause matches. -/
def PyExn.isFileNotFound : PyExn → Bool
  | .fileNotFound _ => true
  | _ => false

/-- An opaque handle for a loaded PIL image. -/
structure PILImage where
  id : ℕ
  deriving DecidableEq

/-- How the PIL library responds to the two calls `compression_algorithm`
makes: `Image.open` (which raises `FileNotFoundError` when the path does
not exist, or another exception for a corrupt or unsupported image) and
`img.save` (`none` means the save succeeded). -/
structure CompressEnv where
  openImage : String → Except PyExn PILImage
  saveImage : PILImage → String → ℕ → Option PyExn

/-- Observable outcome of one `compression_algorithm` call.  `outcome` is
`.ok path` when the function returns normally and `.error e` when the
exception `e` propagates uncaught to the caller; `errorShown` records a
`st.error` message; `wroteOutput` records whether `img.save` wrote the
output path. -/
structure CompressRun where
  outcome : Except PyExn String
  errorShown : Bool
  wroteOutput : Bool

/-- `compression_algorithm` (src/compresionx.py lines 9–15):
`try: img = Image.open(image_file); img.save(output_path, optimize=True,
quality=quality)` with `except FileNotFoundError: st.error(...)`, then
`return output_path` unconditionally.  Any exception other than
`FileNotFoundError` escapes the `try` and propagates. -/
def compression_algorithm (env : CompressEnv) (image_file output_path : String)
    (quality : ℕ := 40) : CompressRun :=
  match env.openImage image_file with
  | .error e =>
      if e.isFileNotFound then ⟨.ok output_path, true, false⟩
      else ⟨.error e, false, false⟩
  | .ok img =>
      match env.saveImage img output_path quality with
      | some e =>
          if e.isFileNotFound then ⟨.ok output_path, true, false⟩
          else ⟨.error e, false, false⟩
      | none => ⟨.ok output_path, false, true⟩

/-- How the filesystem and the OpenCV library respond to the calls
`ai_upscale_image` makes: `os.path.exists`, `sr.readModel` (may raise on
a corrupt model file; `none` means success), `cv2.imread` (returns the
image's `(height, width)`, or `none` for an unreadable path — the code
then raises `FileNotFoundError`), `sr.upsample` (given the configured
scale and the resized dimensions; `none` means success) and
`cv2.imwrite`. -/
structure UpscaleEnv where
  pathExists : String → Bool
  readModel : String → Option PyExn
  imread : String → Option (ℕ × ℕ)
  upsample : ℕ → ℕ × ℕ → Option PyExn
  imwrite : String → Option PyExn

/-- Trace of the `try` block of `ai_upscale_image`.  `outcome` is `.ok
output_path` on success and `.error e` when the exception `e` is raised
inside the block; `resizeDims` is the `(new_w, new_h)` tuple passed to
`cv2.resize` when that line is reached; `progressTicks` lists the
progress-bar steps that ran, each as `(percent, sleep seconds)`;
`wroteOutput` records whether `cv2.imwrite` wrote the output path. -/
structure UpscaleBodyOut where
  outcome : Except PyExn String
  resizeDims : Option (ℕ × ℕ)
  progressTicks : List (ℕ × ℚ)
  wroteOutput : Bool

/-- The progress loop (src/compresionx.py lines 55–58):
`for percent in range(0, 101, 10)` shows the percent and then calls
`time.sleep(0.05)`. -/
def upscaleProgressTicks : List (ℕ × ℚ) :=
  (pyRange 0 101 10).map (fun percent => (percent, 1 / 20))

/-- The `try` block of `ai_upscale_image` (src/compresionx.py lines
24–67): resolve the model path and raise `FileNotFoundError` if absent;
read the model; configure it (`sr.setModel("edsr", scale)` only sets
fields and cannot fail); read the input image, raising
`FileNotFoundError` when `cv2.imread` returns `None`; compute the
working size and resize (`cv2.resize` raises `cv2.error` when the target
size is empty, i.e. has a zero component); run the progress loop; run
`sr.upsample`; write the output. -/
def aiUpscaleBody (env : UpscaleEnv) (input_path output_path model_dir model_name : String)
    (scale max_width : ℕ) : UpscaleBodyOut :=
  let model_path := osPathJoin model_dir model_name
  if env.pathExists model_path = false then
    ⟨.error (.fileNotFound ("Model not found at " ++ model_path)), none, [], false⟩
  else
    match env.readModel model_path with
    | some e => ⟨.error e, none, [], false⟩
    | none =>
        match env.imread input_path with
        | none => ⟨.error (.fileNotFound ("Could not open " ++ input_path)), none, [], false⟩
        | some hw =>
            let dims := resizeTargetDims hw.2 hw.1 max_width
            if dims.1 = 0 ∨ dims.2 = 0 then
              ⟨.error (.cvError "resize: empty target size"), some dims, [], false⟩
            else
              match env.upsample scale dims with
              | some e => ⟨.error e, some dims, upscaleProgressTicks, false⟩
              | none =>
                  match env.imwrite output_path with
                  | some e => ⟨.error e, some dims, upscaleProgressTicks, false⟩
                  | none => ⟨.ok output_path, some dims, upscaleProgressTicks, true⟩

/-- Observable outcome of one `ai_upscale_image` call: the returned path,
whether `st.error` reported a failure, and the trace fields of the body. -/
structure UpscaleRun where
  result : String
  errorShown : Bool
  resizeDims : Option (ℕ × ℕ)
  progressTicks : List (ℕ × ℚ)
  wroteOutput : Bool
  deriving DecidableEq

/-- `ai_upscale_image` (src/compresionx.py lines 19–71): runs the `try`
block; `except Exception as e` catches every exception raised in it,
shows `st.error(f"Upscaling failed: {e}")` and returns `input_path`;
on success the function returns `output_path`. -/
def ai_upscale_image (env : UpscaleEnv) (input_path output_path : String)
    (model_dir : String := "models") (model_name : String := "EDSR_x4.pb")
    (scale : ℕ := 4) (max_width : ℕ := 540) : UpscaleRun :=
  let b := aiUpscaleBody env input_path output_path model_dir model_name scale max_width
  match b.outcome with
  | .ok p => ⟨p, false, b.resizeDims, b.progressTicks, b.wroteOutput⟩
  | .error _ => ⟨input_path, true, b.resizeDims, b.progressTicks, b.wroteOutput⟩

/-- One pipeline call made by the demo page handler. -/
inductive PipelineCall where
  | saveOriginal (path : String)
  | compress (input output : String) (quality : ℕ)
  | upscale (input output model_dir model_name : String) (scale max_width : ℕ)
  deriving DecidableEq

/-- The demo page handler (src/compresionx.py lines 94–104): on an upload
named `uploadName` it derives the three `temp` paths, saves the original,
calls `compression_algorithm` twice (quality defaulting to 40) and
`ai_upscale_image` once (all parameters defaulted). -/
def demoPipelineCalls (uploadName : String) : List PipelineCall :=
  let original_image_path := osPathJoin "temp" uploadName
  let compressed_image_path := osPathJoin "temp" ("compressed_" ++ uploadName)
  let ai_image_path := osPathJoin "temp" ("ai_upscaled_" ++ uploadName)
  [ .saveOriginal original_image_path,
    .compress original_image_path compressed_image_path 40,
    .compress compressed_image_path compressed_image_path 40,
    .upscale compressed_image_path ai_image_path "models" "EDSR_x4.pb" 4 540 ]

/-- Whether a pipeline call is a `compression_algorithm` call. -/
def PipelineCall.isCompress : PipelineCall → Bool
  | .compress _ _ _ => true
  | _ => false

/-- Whether a pipeline call is an `ai_upscale_image` call. -/
def PipelineCall.isUpscale : PipelineCall → Bool
  | .upscale _ _ _ _ _ _ => true
  | _ => false

/-- Environment in which the model file is absent (`os.path.exists` is
false everywhere). -/
def envNoModel : UpscaleEnv :=
  ⟨fun _ => false, fun _ => none, fun _ => none, fun _ _ => none, fun _ => none⟩

/-- Environment in which every library call succeeds and the input image
is 800 wide × 600 high (`img.shape[:2] = (600, 800)`). -/
def envAllOk : UpscaleEnv :=
  ⟨fun _ => true, fun _ => none, fun _ => some (600, 800), fun _ _ => none, fun _ => none⟩

/-- Environment in which every library call succeeds and the input image
is 1 wide × 1000 high (`img.shape[:2] = (1000, 1)`). -/
def envTinyTall : UpscaleEnv :=
  ⟨fun _ => true, fun _ => none, fun _ => some (1000, 1), fun _ _ => none, fun _ => none⟩

/-- PIL environment in which `Image.open` raises `FileNotFoundError`. -/
def envMissingInput : CompressEnv :=
  ⟨fun _ => .error (.fileNotFound "No such file or directory"), fun _ _ _ => none⟩

/-- PIL environment in which `Image.open` raises a non-`FileNotFoundError`
exception (a corrupt or unsupported image). -/
def envCorruptInput : CompressEnv :=
  ⟨fun _ => .error (.unidentifiedImage "cannot identify image file"), fun _ _ _ => none⟩

/-! ## Helper lemmas -/

lemma resizeTargetDims_800_600 : resizeTargetDims 800 600 540 = (540, 405) := by
  rw [resizeTargetDims_eq]; decide

/-- The `resizeDims` trace field of the body depends only on the
filesystem, the model file and the input image — not on `scale`. -/
lemma aiUpscaleBody_resizeDims (env : UpscaleEnv) (i o md mn : String) (s mw : ℕ) :
    (aiUpscaleBody env i o md mn s mw).resizeDims =
      (if env.pathExists (osPathJoin md mn) = false then none
       else match env.readModel (osPathJoin md mn) with
            | some _ => none
            | none =>
                match env.imread i with
                | none => none
                | some hw => some (resizeTargetDims hw.2 hw.1 mw)) := by
  unfold aiUpscaleBody
  dsimp only
  split
  · rfl
  · split
    · rfl
    · split
      · rfl
      · split
        · rfl
        · split
          · rfl
          · split
            · rfl
            · rfl

/-- On a run that wrote the output, the body's progress trace is the full
progress loop. -/
lemma aiUpscaleBody_wrote_ticks (env : UpscaleEnv) (i o md mn : String) (s mw : ℕ) :
    (aiUpscaleBody env i o md mn s mw).wroteOutput = true →
    (aiUpscaleBody env i o md mn s mw).progressTicks = upscaleProgressTicks := by
  unfold aiUpscaleBody
  dsimp only
  repeat' split
  all_goals simp

lemma ai_upscale_image_wroteOutput (env : UpscaleEnv) (i o md mn : String) (s mw : ℕ) :
    (ai_upscale_image env i o md mn s mw).wroteOutput =
    (aiUpscaleBody env i o md mn s mw).wroteOutput := by
  unfold ai_upscale_image
  dsimp only
  split <;> rfl

lemma ai_upscale_image_progressTicks (env : UpscaleEnv) (i o md mn : String) (s mw : ℕ) :
    (ai_upscale_image env i o md mn s mw).progressTicks =
    (aiUpscaleBody env i o md mn s mw).progressTicks := by
  unfold ai_upscale_image
  dsimp only
  split <;> rfl

/-! ## Claims -/

/-- C1 (counterexample): the working-size computation does not use
`round`.  For a 7-wide × 6-high image and the default `max_width = 540`,
the code computes `new_h = int(540 / (7/6)) = 462`, while
`round(540 / (7/6)) = 463`, so `new_h` is not `round(max_width / (w/h))`. -/
theorem C1_round_counterexample :
    (resizeTargetDims 7 6 540).2 = 462 ∧
    round ((540 : ℚ) / ((7 : ℚ) / (6 : ℚ))) = 463 ∧
    ((resizeTargetDims 7 6 540).2 : ℤ) ≠ round ((540 : ℚ) / ((7 : ℚ) / (6 : ℚ))) := by
  have h1 : (resizeTargetDims 7 6 540).2 = 462 := by rw [resizeTargetDims_eq]; decide
  have h2 : round ((540 : ℚ) / ((7 : ℚ) / (6 : ℚ))) = 463 := by
    have hv : (540 : ℚ) / ((7 : ℚ) / (6 : ℚ)) = 3240 / 7 := by norm_num
    rw [hv, round_eq]
    have hs : (3240 : ℚ) / 7 + 1 / 2 = 6487 / 14 := by norm_num
    rw [hs, Int.floor_eq_iff]
    norm_num
  exact ⟨h1, h2, by rw [h1, h2]; decide⟩

/-- C1 (amended): for every image with positive dimensions, if `w ≥ h`
the working size is `(max_width, ⌊max_width · h / w⌋)` and otherwise it
is `(⌊max_width · w / h⌋, max_width)` — the truncating `int()` (floor on
these nonnegative values), not `round`, so the aspect ratio is preserved
within floor-rounding error. -/
theorem C1_working_size_floor (w h mw : ℕ) (hw : 0 < w) (hh : 0 < h) :
    (h ≤ w → resizeTargetDims w h mw = (mw, mw * h / w)) ∧
    (w < h → resizeTargetDims w h mw = (mw * w / h, mw)) := by
  rw [resizeTargetDims_eq]
  constructor
  · intro hle
    by_cases hlt : h < w
    · rw [if_pos hlt]
    · rw [if_neg hlt]
      have hwh : w = h := le_antisymm (not_lt.mp hlt) hle
      subst hwh
      have hc : mw * w / w = mw := Nat.mul_div_cancel mw hw
      rw [hc]
  · intro hlt
    rw [if_neg (by omega)]

/-- C1 (witness): the amended working-size formula at the concrete image
7 × 6 with `max_width = 540`. -/
theorem C1_working_size_floor_witness :
    (6 ≤ 7 → resizeTargetDims 7 6 540 = (540, 540 * 6 / 7)) ∧
    (7 < 6 → resizeTargetDims 7 6 540 = (540 * 7 / 6, 540)) :=
  C1_working_size_floor 7 6 540 (by decide) (by decide)

/-- C2: every exception raised inside the `try` block of
`ai_upscale_image` is caught: the function reports an error and returns
the original input path; in particular this happens whenever the model
file is absent. -/
theorem C2_upscale_catches_all (env : UpscaleEnv) (i o md mn : String) (s mw : ℕ) :
    (∀ e, (aiUpscaleBody env i o md mn s mw).outcome = .error e →
      (ai_upscale_image env i o md mn s mw).result = i ∧
      (ai_upscale_image env i o md mn s mw).errorShown = true) ∧
    (env.pathExists (osPathJoin md mn) = false →
      (ai_upscale_image env i o md mn s mw).result = i ∧
      (ai_upscale_image env i o md mn s mw).errorShown = true) := by
  have hcatch : ∀ e, (aiUpscaleBody env i o md mn s mw).outcome = .error e →
      (ai_upscale_image env i o md mn s mw).result = i ∧
      (ai_upscale_image env i o md mn s mw).errorShown = true := by
    intro e he
    constructor <;> simp [ai_upscale_image, he]
  refine ⟨hcatch, fun hmp => ?_⟩
  refine hcatch (.fileNotFound ("Model not found at " ++ osPathJoin md mn)) ?_
  simp [aiUpscaleBody, hmp]

/-- C2 (witness): with the model file absent, upscaling returns the
input path and reports an error. -/
theorem C2_upscale_catches_all_witness :
    (ai_upscale_image envNoModel "in.png" "out.png" "models" "EDSR_x4.pb" 4 540).result =
      "in.png" ∧
    (ai_upscale_image envNoModel "in.png" "out.png" "models" "EDSR_x4.pb" 4 540).errorShown =
      true :=
  (C2_upscale_catches_all envNoModel "in.png" "out.png" "models" "EDSR_x4.pb" 4 540).2 rfl

/-- C3: when the input path does not exist, `compression_algorithm`
shows an error message, raises nothing (its outcome is a normal return
of the output path), and writes nothing to the output path. -/
theorem C3_compress_missing_input (env : CompressEnv) (i o : String) (q : ℕ) (m : String)
    (h : env.openImage i = .error (.fileNotFound m)) :
    compression_algorithm env i o q = ⟨.ok o, true, false⟩ := by
  simp [compression_algorithm, h, PyExn.isFileNotFound]

/-- C3 (witness): the missing-input behaviour at a concrete environment. -/
theorem C3_compress_missing_input_witness :
    compression_algorithm envMissingInput "a.png" "b.png" 40 = ⟨.ok "b.png", true, false⟩ :=
  C3_compress_missing_input envMissingInput "a.png" "b.png" 40 "No such file or directory" rfl

/-- C4: on every upload the demo handler saves the original, calls the
re-encoder exactly twice at quality 40 (original → compressed path, then
the compressed path re-encoded in place), and calls the upscaler exactly
once on the compressed path. -/
theorem C4_demo_pipeline (name : String) :
    ((demoPipelineCalls name).countP (fun c => c.isCompress)) = 2 ∧
    ((demoPipelineCalls name).countP (fun c => c.isUpscale)) = 1 ∧
    demoPipelineCalls name =
      [ .saveOriginal (osPathJoin "temp" name),
        .compress (osPathJoin "temp" name) (osPathJoin "temp" ("compressed_" ++ name)) 40,
        .compress (osPathJoin "temp" ("compressed_" ++ name))
          (osPathJoin "temp" ("compressed_" ++ name)) 40,
        .upscale (osPathJoin "temp" ("compressed_" ++ name))
          (osPathJoin "temp" ("ai_upscaled_" ++ name)) "models" "EDSR_x4.pb" 4 540 ] :=
  ⟨rfl, rfl, rfl⟩

/-- C5 (counterexample): the working-size resize is not always a
downsampling.  A 100-wide × 50-high image is resized to width 540 — the
new width exceeds the original width. -/
theorem C5_upscales_small_images :
    (resizeTargetDims 100 50 540).1 = 540 ∧ ¬ (resizeTargetDims 100 50 540).1 ≤ 100 := by
  have h : resizeTargetDims 100 50 540 = (540, 270) := by rw [resizeTargetDims_eq]; decide
  rw [h]
  exact ⟨rfl, by decide⟩

/-- C5 (amended): the working-size resize never increases either
dimension provided the image's larger dimension is at least `max_width`;
for smaller images the step enlarges the image. -/
theorem C5_downsamples_large_images (w h mw : ℕ) (hw : 0 < w) (hh : 0 < h)
    (hmax : mw ≤ max w h) :
    (resizeTargetDims w h mw).1 ≤ w ∧ (resizeTargetDims w h mw).2 ≤ h := by
  rw [resizeTargetDims_eq]
  by_cases hlt : h < w
  · rw [if_pos hlt]
    have hmw : mw ≤ w := by rw [max_eq_left hlt.le] at hmax; exact hmax
    refine ⟨hmw, ?_⟩
    calc mw * h / w ≤ w * h / w := Nat.div_le_div_right (Nat.mul_le_mul hmw (le_refl h))
      _ = h := Nat.mul_div_cancel_left h hw
  · rw [if_neg hlt]
    have hwh : w ≤ h := not_lt.mp hlt
    have hmh : mw ≤ h := by rw [max_eq_right hwh] at hmax; exact hmax
    refine ⟨?_, hmh⟩
    calc mw * w / h ≤ h * w / h := Nat.div_le_div_right (Nat.mul_le_mul hmh (le_refl w))
      _ = w := Nat.mul_div_cancel_left w hh

/-- C5 (witness): the amended downsampling bound at the concrete image
800 × 600 with `max_width = 540`. -/
theorem C5_downsamples_large_images_witness :
    0 < 800 ∧ 0 < 600 ∧ 540 ≤ max 800 600 ∧
    ((resizeTargetDims 800 600 540).1 ≤ 800 ∧ (resizeTargetDims 800 600 540).2 ≤ 600) :=
  ⟨by decide, by decide, by decide,
    C5_downsamples_large_images 800 600 540 (by decide) (by decide) (by decide)⟩

/-- C6: the `scale` parameter does not influence the working-size
computation: for any two scales the `(new_w, new_h)` tuple handed to
`cv2.resize` is the same; `scale` only configures the model. -/
theorem C6_scale_does_not_affect_working_size (env : UpscaleEnv) (i o md mn : String)
    (mw s1 s2 : ℕ) :
    (aiUpscaleBody env i o md mn s1 mw).resizeDims =
    (aiUpscaleBody env i o md mn s2 mw).resizeDims := by
  rw [aiUpscaleBody_resizeDims, aiUpscaleBody_resizeDims]

/-- C7: `compression_algorithm` handles only `FileNotFoundError`; any
other exception raised while opening or saving the image propagates to
the caller uncaught. -/
theorem C7_compress_propagates_other_errors (env : CompressEnv) (i o : String) (q : ℕ)
    (e : PyExn) (hnf : e.isFileNotFound = false) :
    (env.openImage i = .error e →
      (compression_algorithm env i o q).outcome = .error e) ∧
    (∀ img, env.openImage i = .ok img → env.saveImage img o q = some e →
      (compression_algorithm env i o q).outcome = .error e) := by
  constructor
  · intro h
    simp [compression_algorithm, h, hnf]
  · intro img h hs
    simp [compression_algorithm, h, hs, hnf]

/-- C7 (witness): a corrupt-image error from `Image.open` propagates
uncaught. -/
theorem C7_compress_propagates_other_errors_witness :
    (compression_algorithm envCorruptInput "a.png" "b.png" 40).outcome =
      .error (.unidentifiedImage "cannot identify image file") :=
  (C7_compress_propagates_other_errors envCorruptInput "a.png" "b.png" 40
    (.unidentifiedImage "cannot identify image file") rfl).1 rfl

lemma aiUpscaleBody_envAllOk :
    aiUpscaleBody envAllOk "in.png" "out.png" "models" "EDSR_x4.pb" 4 540 =
      ⟨.ok "out.png", some (540, 405), upscaleProgressTicks, true⟩ := by
  simp [aiUpscaleBody, envAllOk, osPathJoin, resizeTargetDims_800_600]

/-- C8 (counterexample): on a successful run the progress indicator does
not perform ten steps: `range(0, 101, 10)` drives eleven iterations. -/
theorem C8_not_ten_steps_counterexample :
    (ai_upscale_image envAllOk "in.png" "out.png" "models" "EDSR_x4.pb" 4 540).wroteOutput =
      true ∧
    ¬ (ai_upscale_image envAllOk "in.png" "out.png" "models"
        "EDSR_x4.pb" 4 540).progressTicks.length = 10 := by
  constructor
  · rw [ai_upscale_image_wroteOutput, aiUpscaleBody_envAllOk]
  · rw [ai_upscale_image_progressTicks, aiUpscaleBody_envAllOk]
    decide

/-- C8 (amended): on every successful path the simulated progress
indicator performs exactly eleven fixed steps (percent 0, 10, …, 100),
each followed by a fixed 0.05-second delay, independent of the model's
actual progress. -/
theorem C8_progress_eleven_fixed_steps (env : UpscaleEnv) (i o md mn : String) (s mw : ℕ)
    (hs : (ai_upscale_image env i o md mn s mw).wroteOutput = true) :
    (ai_upscale_image env i o md mn s mw).progressTicks = upscaleProgressTicks ∧
    upscaleProgressTicks =
      [(0, (1 : ℚ)/20), (10, (1 : ℚ)/20), (20, (1 : ℚ)/20), (30, (1 : ℚ)/20),
       (40, (1 : ℚ)/20), (50, (1 : ℚ)/20), (60, (1 : ℚ)/20), (70, (1 : ℚ)/20),
       (80, (1 : ℚ)/20), (90, (1 : ℚ)/20), (100, (1 : ℚ)/20)] ∧
    upscaleProgressTicks.length = 11 := by
  rw [ai_upscale_image_wroteOutput] at hs
  refine ⟨?_, rfl, rfl⟩
  rw [ai_upscale_image_progressTicks]
  exact aiUpscaleBody_wrote_ticks env i o md mn s mw hs

/-- C8 (witness): the amended progress property on a concrete successful
run. -/
theorem C8_progress_eleven_fixed_steps_witness :
    (ai_upscale_image envAllOk "in.png" "out.png" "models"
        "EDSR_x4.pb" 4 540).progressTicks = upscaleProgressTicks ∧
    upscaleProgressTicks =
      [(0, (1 : ℚ)/20), (10, (1 : ℚ)/20), (20, (1 : ℚ)/20), (30, (1 : ℚ)/20),
       (40, (1 : ℚ)/20), (50, (1 : ℚ)/20), (60, (1 : ℚ)/20), (70, (1 : ℚ)/20),
       (80, (1 : ℚ)/20), (90, (1 : ℚ)/20), (100, (1 : ℚ)/20)] ∧
    upscaleProgressTicks.length = 11 :=
  C8_progress_eleven_fixed_steps envAllOk "in.png" "out.png" "models" "EDSR_x4.pb" 4 540
    (by rw [ai_upscale_image_wroteOutput, aiUpscaleBody_envAllOk])

/-- C9: for every image with positive dimensions the working size is
bounded by `max_width` on both axes. -/
theorem C9_working_size_bounded (w h mw : ℕ) (hw : 0 < w) (hh : 0 < h) :
    (resizeTargetDims w h mw).1 ≤ mw ∧ (resizeTargetDims w h mw).2 ≤ mw := by
  rw [resizeTargetDims_eq]
  by_cases hlt : h < w
  · rw [if_pos hlt]
    refine ⟨le_refl mw, ?_⟩
    calc mw * h / w ≤ mw * w / w :=
          Nat.div_le_div_right (Nat.mul_le_mul (le_refl mw) hlt.le)
      _ = mw := Nat.mul_div_cancel mw hw
  · rw [if_neg hlt]
    refine ⟨?_, le_refl mw⟩
    calc mw * w / h ≤ mw * h / h :=
          Nat.div_le_div_right (Nat.mul_le_mul (le_refl mw) (not_lt.mp hlt))
      _ = mw := Nat.mul_div_cancel mw hh

/-- C9 (witness): the bound at the concrete image 800 × 600. -/
theorem C9_working_size_bounded_witness :
    0 < 800 ∧ 0 < 600 ∧
    ((resizeTargetDims 800 600 540).1 ≤ 540 ∧ (resizeTargetDims 800 600 540).2 ≤ 540) :=
  ⟨by decide, by decide, C9_working_size_bounded 800 600 540 (by decide) (by decide)⟩

/-- C10: for tall narrow images with `540 · w < h` the computed working
width is `int(540 · w / h) = 0`; `cv2.resize` then fails on the empty
target size and the catch-all handler returns the input path. -/
theorem C10_zero_width_degenerate (env : UpscaleEnv) (i o : String) (w h : ℕ)
    (_hw : 0 < w) (hwh : w < h) (hsm : 540 * w < h)
    (hp : env.pathExists (osPathJoin "models" "EDSR_x4.pb") = true)
    (hm : env.readModel (osPathJoin "models" "EDSR_x4.pb") = none)
    (hi : env.imread i = some (h, w)) :
    (resizeTargetDims w h 540).1 = 0 ∧
    ai_upscale_image env i o "models" "EDSR_x4.pb" 4 540 =
      ⟨i, true, some (0, 540), [], false⟩ := by
  have hdims : resizeTargetDims w h 540 = (0, 540) := by
    rw [resizeTargetDims_eq, if_neg (by omega)]
    have hz : 540 * w / h = 0 := Nat.div_eq_of_lt hsm
    rw [hz]
  refine ⟨by rw [hdims], ?_⟩
  have hb : aiUpscaleBody env i o "models" "EDSR_x4.pb" 4 540 =
      ⟨.error (.cvError "resize: empty target size"), some (0, 540), [], false⟩ := by
    simp [aiUpscaleBody, hp, hm, hi, hdims]
  simp [ai_upscale_image, hb]

/-- C10 (witness): the degenerate zero-width behaviour at a concrete
1-wide × 1000-high image. -/
theorem C10_zero_width_degenerate_witness :
    0 < 1 ∧ 1 < 1000 ∧ 540 * 1 < 1000 ∧
    ((resizeTargetDims 1 1000 540).1 = 0 ∧
     ai_upscale_image envTinyTall "in.png" "out.png" "models" "EDSR_x4.pb" 4 540 =
       ⟨"in.png", true, some (0, 540), [], false⟩) :=
  ⟨by decide, by decide, by decide,
    C10_zero_width_degenerate envTinyTall "in.png" "out.png" 1 1000
      (by decide) (by decide) (by decide) rfl rfl rfl⟩
